import Mathlib

/-!
Shallow embedding of the authenticated HTTP client of the movie-app-admin
repository (src/api/client.ts) and the session-storage operations of the
authentication context (src/state/AuthContext.tsx).

The runtime is single-threaded and event-driven: every invocation of the
refresh coordinator runs synchronously up to its first `await`, so the
coordinator is modelled as two functions — the synchronous prefix
(`refreshAccessTokenStart`, everything `refreshAccessToken` executes before
returning its promise) and the continuation that runs once the
`POST /auth/refresh` network call settles (`refreshAccessTokenSettle`).
JavaScript string truthiness (`null`/`undefined`/`""` are falsy) is modelled
by `jsTruthy` on `Option String`, with `none` standing for both `null` and
`undefined`.
-/

namespace MovieAdmin

/-- The three durable localStorage entries used by the application:
keys accessToken, refreshToken and user (the serialized session-user record). -/
structure Storage where
  accessToken : Option String
  refreshToken : Option String
  user : Option String
deriving DecidableEq

/-- JavaScript truthiness of a nullable string: null/undefined and the empty
string are falsy. -/
def jsTruthy : Option String → Bool
  | some t => t ≠ ""
  | none => false

/-- client.ts setAccessToken: `if (token) setItem else removeItem`. -/
def setAccessToken (token : Option String) (s : Storage) : Storage :=
  if jsTruthy token then { s with accessToken := token }
  else { s with accessToken := none }

/-- The module-level coordinator variables of client.ts: `isRefreshing`,
`refreshPromise` (promises are identified by a Nat id, allocated from
`nextId`; `none` models the null reference). -/
structure Coord where
  isRefreshing : Bool
  refreshPromise : Option Nat
  nextId : Nat
deriving DecidableEq

/-- Outcome of the `POST /auth/refresh` network call: `success a r` models a
fulfilled response whose `res.data.data` carries the optional fields
`accessToken` and `refreshToken`; `failure` models a rejected call or a
response whose body makes the `try` block throw (both land in `catch`). -/
inductive RefreshOutcome where
  | success (accessToken : Option String) (newRefresh : Option String)
  | failure
deriving DecidableEq

/-- What `refreshAccessToken` has done by the time it returns its promise. -/
structure StartResult where
  /-- coordinator variables after the synchronous prefix -/
  coord : Coord
  /-- localStorage after the synchronous prefix (the prefix performs no
  storage writes on any path) -/
  storage : Storage
  /-- id of the promise returned to this caller -/
  promise : Nat
  /-- `some rt` iff a `POST /auth/refresh` with payload `rt` was issued -/
  posted : Option String
  /-- `some v` iff the returned promise is already settled with value `v`
  (the missing-refresh-credential path, which never awaits) -/
  immediate : Option (Option String)
deriving DecidableEq

/-- Synchronous prefix of client.ts refreshAccessToken.
`if (isRefreshing && refreshPromise) return refreshPromise` is the
single-flight guard. Otherwise `isRefreshing = true` and the async IIFE
starts: with a truthy stored refresh token it suspends at
`api.post('/auth/refresh', ...)`, leaving a pending promise in
`refreshPromise`; with a falsy one the body returns null and its `finally`
(`isRefreshing = false; refreshPromise = null`) runs synchronously, after
which the assignment `refreshPromise = (async () => ...)()` overwrites the
cleared reference with the already-settled promise. -/
def refreshAccessTokenStart (c : Coord) (s : Storage) : StartResult :=
  if c.isRefreshing = true ∧ c.refreshPromise ≠ none then
    { coord := c, storage := s, promise := c.refreshPromise.getD 0,
      posted := none, immediate := none }
  else if jsTruthy s.refreshToken then
    { coord := { isRefreshing := true, refreshPromise := some c.nextId,
                 nextId := c.nextId + 1 },
      storage := s, promise := c.nextId, posted := s.refreshToken,
      immediate := none }
  else
    { coord := { isRefreshing := false, refreshPromise := some c.nextId,
                 nextId := c.nextId + 1 },
      storage := s, promise := c.nextId, posted := none,
      immediate := some none }

/-- Storage effect of the coordinator continuation once the refresh call
settles: on success `setAccessToken(accessToken)` then
`if (newRefresh) localStorage.setItem('refreshToken', newRefresh)`; in the
catch branch `setAccessToken(null)` and
`localStorage.removeItem('refreshToken')`. The user entry is never touched. -/
def refreshSettleStorage (net : RefreshOutcome) (s : Storage) : Storage :=
  match net with
  | .success a r =>
      let s1 := setAccessToken a s
      if jsTruthy r then { s1 with refreshToken := r } else s1
  | .failure =>
      let s1 := setAccessToken none s
      { s1 with refreshToken := none }

/-- Value the refresh promise resolves with: `return accessToken` on
success, `return null` from catch on failure. -/
def resolvedOf : RefreshOutcome → Option String
  | .success a _ => a
  | .failure => none

/-- Coordinator continuation after the awaited `api.post` settles: performs
the storage writes, then the `finally` block resets `isRefreshing` and
clears `refreshPromise`; the promise resolves with `resolvedOf net`. -/
def refreshAccessTokenSettle (net : RefreshOutcome) (c : Coord) (s : Storage) :
    Coord × Storage × Option String :=
  ({ isRefreshing := false, refreshPromise := none, nextId := c.nextId },
   refreshSettleStorage net s, resolvedOf net)

/-- N sequential invocations of the coordinator's synchronous prefix, as
happens when N requests all observe a 401 before any refresh settles (the
single-threaded runtime serialises the interceptor callbacks). Returns the
final coordinator state, the promise ids handed to the callers, and the
number of `POST /auth/refresh` calls issued. -/
def startN : Nat → Coord → Storage → Coord × List Nat × Nat
  | 0, c, _ => (c, [], 0)
  | n + 1, c, s =>
      let r := refreshAccessTokenStart c s
      let rest := startN n r.coord s
      (rest.1, r.promise :: rest.2.1, (if r.posted.isSome then 1 else 0) + rest.2.2)

/-- A request descriptor (axios config): method, url, body, the
Authorization header, and the `_retry` marker (absent/undefined = false). -/
structure ReqConfig where
  method : String
  url : String
  body : Option String
  auth : Option String
  retry : Bool
deriving DecidableEq

/-- The `Bearer` header value template. -/
def bearer (t : String) : String := "Bearer " ++ t

/-- client.ts request interceptor: reads the stored access token; if truthy,
sets `config.headers.Authorization`; otherwise returns the config
unchanged (it never removes or adds anything else). -/
def requestInterceptor (s : Storage) (cfg : ReqConfig) : ReqConfig :=
  match s.accessToken with
  | some t => if t = "" then cfg else { cfg with auth := some (bearer t) }
  | none => cfg

/-- The rejection object handed to the response interceptor's error handler:
the originating config and `error.response?.status` (`none` when there is no
response at all, i.e. a transport/network error). -/
structure ErrInfo where
  config : ReqConfig
  status : Option Nat
deriving DecidableEq

/-- What the error handler returns: `replay cfg` models
`return api(originalRequest)` — the replayed request's outcome is what the
original caller receives; `rejectOriginal` models
`return Promise.reject(error)` — the original failure propagates verbatim. -/
inductive InterceptAction where
  | replay (cfg : ReqConfig)
  | rejectOriginal
deriving DecidableEq

/-- Result of one run of the error handler: the action taken and whether
`refreshAccessToken()` was invoked during it. -/
structure InterceptStep where
  action : InterceptAction
  refreshInvoked : Bool
deriving DecidableEq

/-- client.ts response interceptor, error arm. `newToken` is the value the
awaited `refreshAccessToken()` promise resolves with (the coordinator never
rejects). On a 401 whose config is not yet marked, `_retry` is set before
the await; a truthy new token is attached and the request re-issued once;
otherwise, and on every non-401 or already-marked error, the original error
is rejected to the caller. -/
def responseOnError (e : ErrInfo) (newToken : Option String) : InterceptStep :=
  if e.status = some 401 ∧ e.config.retry = false then
    let retried := { e.config with retry := true }
    match newToken with
    | some t =>
        if t = "" then { action := .rejectOriginal, refreshInvoked := true }
        else { action := .replay { retried with auth := some (bearer t) },
               refreshInvoked := true }
    | none => { action := .rejectOriginal, refreshInvoked := true }
  else { action := .rejectOriginal, refreshInvoked := false }

/-- A fulfilled response as seen by the response interceptor's success arm. -/
structure RespData where
  status : Nat
  body : String
deriving DecidableEq

/-- client.ts response interceptor, success arm: `(response) => response`. -/
def responseOnSuccess (r : RespData) : RespData := r

/-- AuthContext.tsx login, success continuation: `setAccessToken(accessToken)`,
then direct `localStorage.setItem('refreshToken', refreshToken)` and
`localStorage.setItem('user', JSON.stringify(newUser))` (`u` is the
serialized record). The React `user` state update is not storage. -/
def login (a : Option String) (r : String) (u : String) (s : Storage) : Storage :=
  let s1 := setAccessToken a s
  { s1 with refreshToken := some r, user := some u }

/-- AuthContext.tsx logout: `setAccessToken(null)`, then direct
`localStorage.removeItem('refreshToken')` and
`localStorage.removeItem('user')`. -/
def logout (s : Storage) : Storage :=
  let s1 := setAccessToken none s
  { s1 with refreshToken := none, user := none }

/-- Every storage-mutating operation that occurs anywhere in the repository
(a full-source scan: only client.ts and AuthContext.tsx touch localStorage).
`opAuthInitRemoveBadUser` is the AuthProvider mount effect removing an
unparseable user entry. -/
inductive AppOp where
  | opSetAccessToken (t : Option String)
  | opRefreshStartStep
  | opRefreshSettleStep (net : RefreshOutcome)
  | opLogin (a : Option String) (r : String) (u : String)
  | opLogout
  | opAuthInitRemoveBadUser
deriving DecidableEq

/-- Storage effect of each operation, read off the source. The coordinator's
synchronous prefix writes nothing (see `refreshAccessTokenStart.storage`). -/
def applyOp : AppOp → Storage → Storage
  | .opSetAccessToken t, s => setAccessToken t s
  | .opRefreshStartStep, s => s
  | .opRefreshSettleStep net, s => refreshSettleStorage net s
  | .opLogin a r u, s => login a r u s
  | .opLogout, s => logout s
  | .opAuthInitRemoveBadUser, s => { s with user := none }

/-- Whether the operation lives in the authenticated HTTP client
(src/api/client.ts): its setAccessToken or its refresh coordinator. -/
def isClientOp : AppOp → Bool
  | .opSetAccessToken _ => true
  | .opRefreshStartStep => true
  | .opRefreshSettleStep _ => true
  | _ => false

/-- Whether the operation is one of AuthContext.tsx's session operations. -/
def isAuthSessionOp : AppOp → Bool
  | .opLogin _ _ _ => true
  | .opLogout => true
  | _ => false

/-! Helper lemmas shared by the claim theorems. -/

/-- The synchronous prefix of the coordinator never writes storage. -/
theorem start_storage (c : Coord) (s : Storage) :
    (refreshAccessTokenStart c s).storage = s := by
  unfold refreshAccessTokenStart
  split
  · rfl
  · split <;> rfl

/-- While a refresh is in flight, the coordinator hands every caller the
in-flight promise and changes nothing. -/
theorem start_busy (c : Coord) (s : Storage) (p : Nat)
    (h1 : c.isRefreshing = true) (h2 : c.refreshPromise = some p) :
    refreshAccessTokenStart c s =
      { coord := c, storage := s, promise := p, posted := none, immediate := none } := by
  simp [refreshAccessTokenStart, h1, h2]

/-- Starting from an idle coordinator with a truthy stored refresh token,
the prefix issues the one refresh call and leaves a pending promise. -/
theorem start_idle_token (c : Coord) (s : Storage)
    (h1 : c.isRefreshing = false) (ht : jsTruthy s.refreshToken = true) :
    refreshAccessTokenStart c s =
      { coord := { isRefreshing := true, refreshPromise := some c.nextId,
                   nextId := c.nextId + 1 },
        storage := s, promise := c.nextId, posted := s.refreshToken,
        immediate := none } := by
  simp [refreshAccessTokenStart, h1, ht]

/-- With a falsy stored refresh token the prefix never posts. -/
theorem start_posted_none (c : Coord) (s : Storage)
    (ht : jsTruthy s.refreshToken = false) :
    (refreshAccessTokenStart c s).posted = none := by
  unfold refreshAccessTokenStart
  split
  · rfl
  · simp [ht]

/-- Iterated invocations against an in-flight refresh all receive the same
promise and issue no refresh call. -/
theorem startN_busy (n : Nat) (c : Coord) (s : Storage) (p : Nat)
    (h1 : c.isRefreshing = true) (h2 : c.refreshPromise = some p) :
    startN n c s = (c, List.replicate n p, 0) := by
  induction n with
  | zero => simp [startN]
  | succ n ih => simp [startN, start_busy c s p h1 h2, ih, List.replicate_succ]

/-- With a falsy stored refresh token no iteration ever posts. -/
theorem startN_posts_noToken (n : Nat) (c : Coord) (s : Storage)
    (ht : jsTruthy s.refreshToken = false) :
    (startN n c s).2.2 = 0 := by
  induction n generalizing c with
  | zero => rfl
  | succ n ih => simp [startN, start_posted_none _ _ ht, ih]

/-! Claim theorems. -/

/-- From an idle coordinator with a stored refresh credential, N + 1
invocations post exactly once and all callers share one promise id. -/
theorem startN_idle_token (n : Nat) (c : Coord) (s : Storage)
    (h1 : c.isRefreshing = false) (ht : jsTruthy s.refreshToken = true) :
    (startN (n + 1) c s).2.2 = 1
    ∧ ∀ p ∈ (startN (n + 1) c s).2.1, p = c.nextId := by
  have hrest :
      startN n ⟨true, some c.nextId, c.nextId + 1⟩ s
        = (⟨true, some c.nextId, c.nextId + 1⟩, List.replicate n c.nextId, 0) :=
    startN_busy n _ s c.nextId rfl rfl
  have hposted : (s.refreshToken).isSome = true := by
    cases hx : s.refreshToken with
    | none => rw [hx] at ht; simp [jsTruthy] at ht
    | some t => rfl
  constructor
  · simp [startN, start_idle_token c s h1 ht, hrest, hposted]
  · intro p hp
    simp [startN, start_idle_token c s h1 ht, hrest] at hp
    rcases hp with hp | hp
    · exact hp
    · exact hp.2

/-- C1. Single-flight refresh: from an idle coordinator, any number of
sequential coordinator invocations (the serialised form of N concurrent
401 handlers) issues at most one POST /auth/refresh; when a refresh
credential is stored, N + 1 invocations issue exactly one POST and every
caller receives the same shared promise id. -/
theorem c1_single_flight (n : Nat) (c : Coord) (s : Storage)
    (h1 : c.isRefreshing = false) :
    (startN n c s).2.2 ≤ 1
    ∧ (jsTruthy s.refreshToken = true →
        (startN (n + 1) c s).2.2 = 1
        ∧ ∀ p ∈ (startN (n + 1) c s).2.1, p = c.nextId) := by
  refine ⟨?_, fun ht => startN_idle_token n c s h1 ht⟩
  by_cases ht : jsTruthy s.refreshToken = true
  · cases n with
    | zero => simp [startN]
    | succ m => exact Nat.le_of_eq (startN_idle_token m c s h1 ht).1
  · have ht0 : jsTruthy s.refreshToken = false := by
      cases hx : jsTruthy s.refreshToken
      · rfl
      · exact absurd hx ht
    simp [startN_posts_noToken n c s ht0]

/-- C1 witness: three concurrent 401 handlers against an idle coordinator
with stored refresh token R1 issue exactly one refresh call and all share
promise id 0. -/
theorem c1_single_flight_witness :
    (startN 3 { isRefreshing := false, refreshPromise := none, nextId := 0 }
      { accessToken := some "A1", refreshToken := some "R1", user := none }).2.2 = 1
    ∧ ∀ p ∈ (startN 3 { isRefreshing := false, refreshPromise := none, nextId := 0 }
      { accessToken := some "A1", refreshToken := some "R1", user := none }).2.1, p = 0 :=
  (c1_single_flight 2 { isRefreshing := false, refreshPromise := none, nextId := 0 }
    { accessToken := some "A1", refreshToken := some "R1", user := none } rfl).2 (by decide)

/-- C2. At-most-one retry per descriptor: a descriptor already marked
retried is rejected with no refresh invoked (its second 401 surfaces to the
caller), and every replay the interceptor emits carries the retried marker
set, so the replayed descriptor can never be replayed again. -/
theorem c2_at_most_one_retry (cfg : ReqConfig) (st : Option Nat) (nt : Option String) :
    (cfg.retry = true →
      responseOnError { config := cfg, status := st } nt
        = { action := .rejectOriginal, refreshInvoked := false })
    ∧ (∀ cfg2, (responseOnError { config := cfg, status := st } nt).action
        = .replay cfg2 → cfg2.retry = true) := by
  constructor
  · intro h
    simp [responseOnError, h]
  · intro cfg2 h
    by_cases hc : st = some 401 ∧ cfg.retry = false
    · rcases nt with _ | t
      · simp [responseOnError, hc] at h
      · by_cases hte : t = ""
        · simp [responseOnError, hc, hte] at h
        · simp [responseOnError, hc, hte] at h
          rw [← h]
    · simp [responseOnError, hc] at h

/-- C2 witness: an already-marked descriptor that 401s again is rejected
without a refresh, and a concrete replay emitted for an unmarked descriptor
carries the marker. -/
theorem c2_at_most_one_retry_witness :
    responseOnError
      { config := { method := "GET", url := "/movies", body := none, auth := none,
                    retry := true },
        status := some 401 } (some "A2")
      = { action := .rejectOriginal, refreshInvoked := false }
    ∧ ({ method := "GET", url := "/movies", body := none,
         auth := some (bearer "A2"), retry := true } : ReqConfig).retry = true :=
  ⟨(c2_at_most_one_retry
      { method := "GET", url := "/movies", body := none, auth := none, retry := true }
      (some 401) (some "A2")).1 rfl,
   (c2_at_most_one_retry
      { method := "GET", url := "/movies", body := none, auth := none, retry := false }
      (some 401) (some "A2")).2
      { method := "GET", url := "/movies", body := none,
        auth := some (bearer "A2"), retry := true } (by decide)⟩

/-- C3. Successful refresh replay: a 401 on an unmarked descriptor, with an
idle coordinator and a stored refresh credential, posts that credential;
when the refresh call succeeds with access token A2, the shared promise
resolves with A2, the interceptor re-issues exactly the original descriptor
once with Authorization set to Bearer A2 (the replay outcome being what the
caller receives), and the request interceptor, reading the freshly stored
token, also stamps the replay with Bearer A2. -/
theorem c3_successful_refresh_replay (cfg : ReqConfig) (c : Coord) (s : Storage)
    (A2 : String) (nr : Option String)
    (hretry : cfg.retry = false) (hidle : c.isRefreshing = false)
    (ht : jsTruthy s.refreshToken = true) (hA2 : A2 ≠ "") :
    (refreshAccessTokenStart c s).posted = s.refreshToken
    ∧ (refreshAccessTokenSettle (.success (some A2) nr)
        (refreshAccessTokenStart c s).coord (refreshAccessTokenStart c s).storage).2.2
        = some A2
    ∧ responseOnError { config := cfg, status := some 401 }
        (refreshAccessTokenSettle (.success (some A2) nr)
          (refreshAccessTokenStart c s).coord (refreshAccessTokenStart c s).storage).2.2
        = { action := .replay { cfg with retry := true, auth := some (bearer A2) },
            refreshInvoked := true }
    ∧ (requestInterceptor
        (refreshAccessTokenSettle (.success (some A2) nr)
          (refreshAccessTokenStart c s).coord (refreshAccessTokenStart c s).storage).2.1
        { cfg with retry := true, auth := some (bearer A2) }).auth
        = some (bearer A2) := by
  have hacc : (refreshSettleStorage (.success (some A2) nr) s).accessToken = some A2 := by
    simp only [refreshSettleStorage]
    split <;> simp [setAccessToken, jsTruthy, hA2]
  refine ⟨?_, ?_, ?_, ?_⟩
  · simp [start_idle_token c s hidle ht]
  · simp [refreshAccessTokenSettle, resolvedOf]
  · simp [refreshAccessTokenSettle, resolvedOf, responseOnError, hretry, hA2]
  · rw [start_storage]
    simp [refreshAccessTokenSettle, requestInterceptor, hacc, hA2]

/-- C3 witness: with stored expired token A1 and refresh token R1, the
refresh posts R1, resolves A2, and the original GET is replayed once with
Authorization Bearer A2. -/
theorem c3_successful_refresh_replay_witness :
    (refreshAccessTokenStart { isRefreshing := false, refreshPromise := none, nextId := 0 }
        { accessToken := some "A1", refreshToken := some "R1", user := none }).posted
      = some "R1"
    ∧ (refreshAccessTokenSettle (.success (some "A2") none)
        (refreshAccessTokenStart { isRefreshing := false, refreshPromise := none, nextId := 0 }
          { accessToken := some "A1", refreshToken := some "R1", user := none }).coord
        (refreshAccessTokenStart { isRefreshing := false, refreshPromise := none, nextId := 0 }
          { accessToken := some "A1", refreshToken := some "R1", user := none }).storage).2.2
      = some "A2"
    ∧ responseOnError
        { config := { method := "GET", url := "/movies", body := none,
                      auth := some (bearer "A1"), retry := false },
          status := some 401 }
        (refreshAccessTokenSettle (.success (some "A2") none)
          (refreshAccessTokenStart { isRefreshing := false, refreshPromise := none, nextId := 0 }
            { accessToken := some "A1", refreshToken := some "R1", user := none }).coord
          (refreshAccessTokenStart { isRefreshing := false, refreshPromise := none, nextId := 0 }
            { accessToken := some "A1", refreshToken := some "R1", user := none }).storage).2.2
      = { action := .replay { method := "GET", url := "/movies", body := none,
                              auth := some (bearer "A2"), retry := true },
          refreshInvoked := true }
    ∧ (requestInterceptor
        (refreshAccessTokenSettle (.success (some "A2") none)
          (refreshAccessTokenStart { isRefreshing := false, refreshPromise := none, nextId := 0 }
            { accessToken := some "A1", refreshToken := some "R1", user := none }).coord
          (refreshAccessTokenStart { isRefreshing := false, refreshPromise := none, nextId := 0 }
            { accessToken := some "A1", refreshToken := some "R1", user := none }).storage).2.1
        { method := "GET", url := "/movies", body := none,
          auth := some (bearer "A2"), retry := true }).auth
      = some (bearer "A2") :=
  c3_successful_refresh_replay
    { method := "GET", url := "/movies", body := none, auth := some (bearer "A1"),
      retry := false }
    { isRefreshing := false, refreshPromise := none, nextId := 0 }
    { accessToken := some "A1", refreshToken := some "R1", user := none }
    "A2" none rfl rfl (by decide) (by decide)

/-- C4. Token attachment: after setAccessToken with a nonempty token t,
every request the interceptor processes goes out with its Authorization
header set to Bearer t and all other descriptor fields untouched; after
setAccessToken null the interceptor returns the descriptor unchanged, so it
attaches no Authorization header. -/
theorem c4_token_attachment (s : Storage) (cfg : ReqConfig) (t : String) (ht : t ≠ "") :
    requestInterceptor (setAccessToken (some t) s) cfg
      = { cfg with auth := some (bearer t) }
    ∧ requestInterceptor (setAccessToken none s) cfg = cfg := by
  constructor
  · simp [setAccessToken, jsTruthy, ht, requestInterceptor]
  · simp [setAccessToken, jsTruthy, requestInterceptor]

/-- C4 witness: after storing T1 a concrete GET carries Bearer T1, and
after clearing the token the descriptor passes through unchanged. -/
theorem c4_token_attachment_witness :
    requestInterceptor
      (setAccessToken (some "T1")
        { accessToken := none, refreshToken := none, user := none })
      { method := "GET", url := "/users", body := none, auth := none, retry := false }
      = { method := "GET", url := "/users", body := none,
          auth := some (bearer "T1"), retry := false }
    ∧ requestInterceptor
      (setAccessToken none { accessToken := none, refreshToken := none, user := none })
      { method := "GET", url := "/users", body := none, auth := none, retry := false }
      = { method := "GET", url := "/users", body := none, auth := none, retry := false } :=
  c4_token_attachment { accessToken := none, refreshToken := none, user := none }
    { method := "GET", url := "/users", body := none, auth := none, retry := false }
    "T1" (by decide)

/-- C8. Non-auth failures pass through unchanged: every error whose status
is not 401 — any other error status, or a transport error with no response
status at all — is rejected to the caller verbatim with no refresh invoked
and no replay, and the success arm returns every fulfilled response
unchanged. -/
theorem c8_non_auth_passthrough (cfg : ReqConfig) (st : Option Nat)
    (nt : Option String) (r : RespData) (h : st ≠ some 401) :
    responseOnError { config := cfg, status := st } nt
      = { action := .rejectOriginal, refreshInvoked := false }
    ∧ responseOnSuccess r = r := by
  refine ⟨?_, rfl⟩
  simp [responseOnError, h]

/-- C8 witness: a 500 response and a network error (no status) are both
rejected verbatim with no refresh, and a concrete 200 response passes
through. -/
theorem c8_non_auth_passthrough_witness :
    responseOnError
      { config := { method := "GET", url := "/stats", body := none, auth := none,
                    retry := false },
        status := some 500 } none
      = { action := .rejectOriginal, refreshInvoked := false }
    ∧ responseOnError
      { config := { method := "GET", url := "/stats", body := none, auth := none,
                    retry := false },
        status := none } none
      = { action := .rejectOriginal, refreshInvoked := false }
    ∧ responseOnSuccess { status := 200, body := "ok" } = { status := 200, body := "ok" } :=
  ⟨(c8_non_auth_passthrough
      { method := "GET", url := "/stats", body := none, auth := none, retry := false }
      (some 500) none { status := 200, body := "ok" } (by decide)).1,
   (c8_non_auth_passthrough
      { method := "GET", url := "/stats", body := none, auth := none, retry := false }
      none none { status := 200, body := "ok" } (by decide)).1,
   (c8_non_auth_passthrough
      { method := "GET", url := "/stats", body := none, auth := none, retry := false }
      (some 500) none { status := 200, body := "ok" } (by decide)).2⟩

/-- C5 counterexample: after a failed refresh from a fully populated
session, the access and refresh tokens are gone but the serialized
session-user record is still in storage, so the three entries are not
cleared together. -/
theorem c5_counterexample :
    (refreshSettleStorage .failure
      { accessToken := some "A1", refreshToken := some "R1", user := some "U1" }).accessToken
      = none
    ∧ (refreshSettleStorage .failure
      { accessToken := some "A1", refreshToken := some "R1", user := some "U1" }).refreshToken
      = none
    ∧ ¬ (refreshSettleStorage .failure
      { accessToken := some "A1", refreshToken := some "R1", user := some "U1" }).user
      = none := by decide

/-- C5 (amended). Session cleared together on logout only: logout removes
all three durable entries; a failed refresh clears the access and refresh
tokens but leaves the session-user record untouched. -/
theorem c5_amended_session_clear (s : Storage) :
    logout s = { accessToken := none, refreshToken := none, user := none }
    ∧ (refreshSettleStorage .failure s).accessToken = none
    ∧ (refreshSettleStorage .failure s).refreshToken = none
    ∧ (refreshSettleStorage .failure s).user = s.user := by
  refine ⟨?_, ?_, ?_, ?_⟩ <;>
    simp [logout, refreshSettleStorage, setAccessToken, jsTruthy]

/-- C6 counterexample: invoking the coordinator with no stored refresh
credential resolves immediately with null, yet the stored access token A1
is left in place — the credentials are not cleared. -/
theorem c6_counterexample :
    (refreshAccessTokenStart { isRefreshing := false, refreshPromise := none, nextId := 0 }
      { accessToken := some "A1", refreshToken := none, user := none }).immediate
      = some none
    ∧ (refreshAccessTokenStart { isRefreshing := false, refreshPromise := none, nextId := 0 }
      { accessToken := some "A1", refreshToken := none, user := none }).storage.accessToken
      = some "A1" := by decide

/-- C6 (amended). Missing refresh credential: the coordinator resolves
synchronously as no new token without touching storage and without issuing
a refresh call, and the interceptor then rejects the originating request's
own 401 to the caller. -/
theorem c6_amended_no_credential (c : Coord) (s : Storage) (cfg : ReqConfig)
    (hidle : c.isRefreshing = false) (ht : jsTruthy s.refreshToken = false)
    (hretry : cfg.retry = false) :
    (refreshAccessTokenStart c s).immediate = some none
    ∧ (refreshAccessTokenStart c s).storage = s
    ∧ (refreshAccessTokenStart c s).posted = none
    ∧ responseOnError { config := cfg, status := some 401 } none
      = { action := .rejectOriginal, refreshInvoked := true } := by
  refine ⟨?_, start_storage c s, start_posted_none c s ht, ?_⟩
  · simp [refreshAccessTokenStart, hidle, ht]
  · simp [responseOnError, hretry]

/-- C6 amended witness: with access token A1 stored and no refresh token, a
concrete 401 GET resolves no token, storage is untouched, nothing is
posted, and the original 401 is rejected to the caller. -/
theorem c6_amended_no_credential_witness :
    (refreshAccessTokenStart { isRefreshing := false, refreshPromise := none, nextId := 0 }
      { accessToken := some "A1", refreshToken := none, user := none }).immediate
      = some none
    ∧ (refreshAccessTokenStart { isRefreshing := false, refreshPromise := none, nextId := 0 }
      { accessToken := some "A1", refreshToken := none, user := none }).storage
      = { accessToken := some "A1", refreshToken := none, user := none }
    ∧ (refreshAccessTokenStart { isRefreshing := false, refreshPromise := none, nextId := 0 }
      { accessToken := some "A1", refreshToken := none, user := none }).posted = none
    ∧ responseOnError
      { config := { method := "GET", url := "/movies", body := none, auth := none,
                    retry := false },
        status := some 401 } none
      = { action := .rejectOriginal, refreshInvoked := true } :=
  c6_amended_no_credential { isRefreshing := false, refreshPromise := none, nextId := 0 }
    { accessToken := some "A1", refreshToken := none, user := none }
    { method := "GET", url := "/movies", body := none, auth := none, retry := false }
    rfl rfl rfl

/-- C7 counterexample: the login operation of AuthContext.tsx, which is not
part of the HTTP client, mutates the stored refresh credential directly. -/
theorem c7_counterexample :
    ¬ (applyOp (.opLogin (some "A1") "R1" "U1")
        { accessToken := none, refreshToken := none, user := none }).refreshToken
      = ({ accessToken := none, refreshToken := none, user := none } : Storage).refreshToken
    ∧ isClientOp (.opLogin (some "A1") "R1" "U1") = false := by decide

/-- C7 (amended). Credential writers: every operation in the repository
that mutates a stored credential is either a client operation
(setAccessToken or the refresh coordinator) or one of AuthContext.tsx's
session operations login and logout, which write the refresh token to
storage directly. -/
theorem c7_amended_credential_writers (op : AppOp) (s : Storage)
    (h : ¬ (applyOp op s).accessToken = s.accessToken
       ∨ ¬ (applyOp op s).refreshToken = s.refreshToken) :
    isClientOp op = true ∨ isAuthSessionOp op = true := by
  cases op with
  | opSetAccessToken t => exact Or.inl rfl
  | opRefreshStartStep => exact Or.inl rfl
  | opRefreshSettleStep net => exact Or.inl rfl
  | opLogin a r u => exact Or.inr rfl
  | opLogout => exact Or.inr rfl
  | opAuthInitRemoveBadUser =>
      rcases h with h | h <;> exact absurd rfl h

/-- C7 amended witness: logout mutates the stored credentials and is a
session operation of the auth context. -/
theorem c7_amended_credential_writers_witness :
    (¬ (applyOp .opLogout
        { accessToken := some "A1", refreshToken := some "R1", user := some "U1" }).accessToken
      = ({ accessToken := some "A1", refreshToken := some "R1", user := some "U1" } :
          Storage).accessToken
      ∨ ¬ (applyOp .opLogout
        { accessToken := some "A1", refreshToken := some "R1", user := some "U1" }).refreshToken
      = ({ accessToken := some "A1", refreshToken := some "R1", user := some "U1" } :
          Storage).refreshToken)
    ∧ (isClientOp .opLogout = true ∨ isAuthSessionOp .opLogout = true) :=
  ⟨by decide,
   c7_amended_credential_writers .opLogout
     { accessToken := some "A1", refreshToken := some "R1", user := some "U1" } (by decide)⟩

/-- C9. Refresh token rotation: a successful refresh returning both a new
access token A2 and a new refresh token R2 persists both, so the next
refresh from an idle coordinator posts R2, not the original credential;
when the response omits the refresh token only the access token is
replaced and the stored refresh token is left unchanged. -/
theorem c9_refresh_rotation (c : Coord) (s : Storage) (A2 R2 : String)
    (hA : A2 ≠ "") (hR : R2 ≠ "") (hidle : c.isRefreshing = false) :
    refreshSettleStorage (.success (some A2) (some R2)) s
      = { s with accessToken := some A2, refreshToken := some R2 }
    ∧ (refreshAccessTokenStart c
        (refreshSettleStorage (.success (some A2) (some R2)) s)).posted = some R2
    ∧ refreshSettleStorage (.success (some A2) none) s
      = { s with accessToken := some A2 } := by
  have h1 : refreshSettleStorage (.success (some A2) (some R2)) s
      = { s with accessToken := some A2, refreshToken := some R2 } := by
    simp [refreshSettleStorage, setAccessToken, jsTruthy, hA, hR]
  refine ⟨h1, ?_, ?_⟩
  · rw [h1]
    simp [refreshAccessTokenStart, hidle, jsTruthy, hR]
  · simp [refreshSettleStorage, setAccessToken, jsTruthy, hA]

/-- C9 witness: rotating from R1 to R2 with new access token A2 persists
both, the next refresh posts R2, and a rotation-free response keeps R1. -/
theorem c9_refresh_rotation_witness :
    refreshSettleStorage (.success (some "A2") (some "R2"))
      { accessToken := some "A1", refreshToken := some "R1", user := none }
      = { accessToken := some "A2", refreshToken := some "R2", user := none }
    ∧ (refreshAccessTokenStart { isRefreshing := false, refreshPromise := none, nextId := 1 }
        (refreshSettleStorage (.success (some "A2") (some "R2"))
          { accessToken := some "A1", refreshToken := some "R1", user := none })).posted
      = some "R2"
    ∧ refreshSettleStorage (.success (some "A2") none)
      { accessToken := some "A1", refreshToken := some "R1", user := none }
      = { accessToken := some "A2", refreshToken := some "R1", user := none } :=
  c9_refresh_rotation { isRefreshing := false, refreshPromise := none, nextId := 1 }
    { accessToken := some "A1", refreshToken := some "R1", user := none }
    "A2" "R2" (by decide) (by decide) rfl

/-- C10 counterexample: in the missing-credential path the coordinator's
promise settles (immediately, with null) and the refreshing flag is reset,
yet the shared pending-outcome reference is not cleared: the assignment of
the already-settled promise overwrites the null the finally block wrote. -/
theorem c10_counterexample :
    (refreshAccessTokenStart { isRefreshing := false, refreshPromise := none, nextId := 0 }
      { accessToken := none, refreshToken := none, user := none }).immediate = some none
    ∧ ¬ (refreshAccessTokenStart { isRefreshing := false, refreshPromise := none, nextId := 0 }
      { accessToken := none, refreshToken := none, user := none }).coord.refreshPromise
      = none := by decide

/-- C10 (amended). The refresh coordinator never rejects: every path yields
a token-or-null value. The missing-credential path resolves null and resets
the refreshing flag but leaves refreshPromise referencing the settled
promise; after an actual refresh call settles (success or failure) the flag
is false, the pending reference is cleared, and the promise resolves with
the outcome's access token or null. -/
theorem c10_amended_settlement (c c2 : Coord) (s s2 : Storage) (net : RefreshOutcome)
    (hidle : c.isRefreshing = false) (ht : jsTruthy s.refreshToken = false) :
    ((refreshAccessTokenStart c s).immediate = some none
      ∧ (refreshAccessTokenStart c s).coord.isRefreshing = false
      ∧ (refreshAccessTokenStart c s).coord.refreshPromise = some c.nextId)
    ∧ ((refreshAccessTokenSettle net c2 s2).1.isRefreshing = false
      ∧ (refreshAccessTokenSettle net c2 s2).1.refreshPromise = none
      ∧ (refreshAccessTokenSettle net c2 s2).2.2 = resolvedOf net) := by
  constructor
  · simp [refreshAccessTokenStart, hidle, ht]
  · exact ⟨rfl, rfl, rfl⟩

/-- C10 amended witness: concrete empty storage — the no-credential path
resolves null with the flag reset and the reference still set; a concrete
failed settle clears the reference and resolves null. -/
theorem c10_amended_settlement_witness :
    ((refreshAccessTokenStart { isRefreshing := false, refreshPromise := none, nextId := 0 }
        { accessToken := none, refreshToken := none, user := none }).immediate = some none
      ∧ (refreshAccessTokenStart { isRefreshing := false, refreshPromise := none, nextId := 0 }
        { accessToken := none, refreshToken := none, user := none }).coord.isRefreshing = false
      ∧ (refreshAccessTokenStart { isRefreshing := false, refreshPromise := none, nextId := 0 }
        { accessToken := none, refreshToken := none, user := none }).coord.refreshPromise
        = some 0)
    ∧ ((refreshAccessTokenSettle .failure (⟨true, some 0, 1⟩ : Coord) { accessToken := none, refreshToken := some "R1", user := none }).1.isRefreshing
        = false
      ∧ (refreshAccessTokenSettle .failure (⟨true, some 0, 1⟩ : Coord) { accessToken := none, refreshToken := some "R1", user := none }).1.refreshPromise
        = none
      ∧ (refreshAccessTokenSettle .failure (⟨true, some 0, 1⟩ : Coord) { accessToken := none, refreshToken := some "R1", user := none }).2.2
        = resolvedOf .failure) :=
  c10_amended_settlement { isRefreshing := false, refreshPromise := none, nextId := 0 }
    { isRefreshing := true, refreshPromise := some 0, nextId := 1 }
    { accessToken := none, refreshToken := none, user := none }
    { accessToken := none, refreshToken := some "R1", user := none }
    .failure rfl rfl

end MovieAdmin
